import Mathlib

/-!
Verification development for the StellarLend contract core
(stellar-lend/contracts/hello-world).

The repository ships the contract entry points (lib.rs) and its test suite
(test.rs); the bodies of the modules risk_management, deposit, withdraw,
borrow, repay and governance are declared but their sources are not part of
the snapshot.  Every operation below is therefore modelled from the
specification (spec.md), with behaviour pinned down by the in-repo tests
wherever the tests exercise the corresponding path.  Addresses are modelled
as natural numbers, i128 values as Int with explicit bounds, and the host
storage as explicit state records; fallible operations return Except.
Division is Int division; all quantities the claims touch are nonnegative,
where Rust i128 division and Lean integer division agree (we use Int.tdiv,
truncating toward zero exactly as Rust i128 division does).
-/

/-- Largest i128 value, 2^127 - 1. -/
def i128Max : Int := 170141183460469231731687303715884105727

/-- View of an Except value as a sum, for deciding equality. -/
def exceptToSum {ε α : Type} : Except ε α → ε ⊕ α
  | .error e => .inl e
  | .ok a => .inr a

instance {ε α : Type} [DecidableEq ε] [DecidableEq α] : DecidableEq (Except ε α) :=
  fun a b =>
    decidable_of_iff (exceptToSum a = exceptToSum b)
      (by cases a <;> cases b <;> simp [exceptToSum])

/-- Error type of the risk-management and lending modules.
Modelled from the spec: section 7 lists the taxonomy
(Unauthorized, InvalidAmount, ParameterOutOfBounds, ParameterChangeTooLarge,
AssetNotEnabled, InsufficientBalance, InsufficientCollateral,
InsufficientCollateralRatio, MaxBorrowExceeded, NoDebt, OperationPaused,
EmergencyPaused, arithmetic overflow); NotInitialized is the typed
"not initialized" condition of section 4.1, and InvalidRiskConfig is the
post-update invariant violation (contract error #7 in the tests). -/
inductive LendErr where
  | Unauthorized
  | InvalidAmount
  | InsufficientBalance
  | AssetNotEnabled
  | OperationPaused
  | EmergencyPaused
  | InsufficientCollateral
  | InsufficientCollateralRatio
  | MaxBorrowExceeded
  | NoDebt
  | ArithmeticOverflow
  | NotInitialized
  | ParameterOutOfBounds
  | ParameterChangeTooLarge
  | InvalidRiskConfig
deriving DecidableEq, Repr

/-- RiskConfig record, basis-point integers (10000 = 100%).
Modelled from the spec: section 3, RiskConfig singleton. -/
structure RiskConfig where
  min_collateral_ratio : Int
  liquidation_threshold : Int
  close_factor : Int
  liquidation_incentive : Int
deriving DecidableEq, Repr

/-- Default risk configuration set by initialize.
Modelled from the spec: fixed defaults 110%, 105%, 50%, 10%
(section 3), confirmed by the values the tests read back. -/
def defaultRiskConfig : RiskConfig :=
  { min_collateral_ratio := 11000
    liquidation_threshold := 10500
    close_factor := 5000
    liquidation_incentive := 1000 }

/-- Relative-change bound: a provided new value may differ from the current
value by at most 10% of the current value.
Modelled from the spec: each update bounded to at most 10% relative change
from its current value (section 3); the concrete bound current/10 matches
the test comments (default 11000 gives max change 1100). -/
def withinChangeLimit (cur new : Int) : Bool :=
  new - cur ≤ Int.tdiv cur 10 && cur - new ≤ Int.tdiv cur 10

/-- Absolute bounds per field.
Modelled from the spec: each field within an absolute bound range
(section 3); the concrete bounds follow the test comments: minimum allowed
min_collateral_ratio and liquidation_threshold are 10000, close_factor is at
most 10000 (100%), liquidation_incentive at most 5000 (50%). -/
def riskBoundsOk (cfg : RiskConfig) : Bool :=
  10000 ≤ cfg.min_collateral_ratio &&
  10000 ≤ cfg.liquidation_threshold &&
  (0 ≤ cfg.close_factor && cfg.close_factor ≤ 10000) &&
  (0 ≤ cfg.liquidation_incentive && cfg.liquidation_incentive ≤ 5000)

/-- Validated update of the risk configuration, shared by the admin setter
and by governance execution.
Modelled from the spec: section 4.1 (validate change limit, absolute bounds,
post-update invariant, all-or-nothing).  Order of checks: all relative-change
limits first (the tests note that the change limit is checked before the
absolute bounds, and the spec requires every over-limit call to fail with
ParameterChangeTooLarge), then absolute bounds, then the threshold invariant.
The invariant accepts equality: test_risk_params_edge_cases sets both
min_collateral_ratio and liquidation_threshold to 10000 and succeeds, so the
rejected condition is min_collateral_ratio < liquidation_threshold. -/
def apply_risk_update (cfg : RiskConfig)
    (mcr lt cf li : Option Int) : Except LendErr RiskConfig :=
  if !(withinChangeLimit cfg.min_collateral_ratio (mcr.getD cfg.min_collateral_ratio)) then
    .error .ParameterChangeTooLarge
  else if !(withinChangeLimit cfg.liquidation_threshold (lt.getD cfg.liquidation_threshold)) then
    .error .ParameterChangeTooLarge
  else if !(withinChangeLimit cfg.close_factor (cf.getD cfg.close_factor)) then
    .error .ParameterChangeTooLarge
  else if !(withinChangeLimit cfg.liquidation_incentive (li.getD cfg.liquidation_incentive)) then
    .error .ParameterChangeTooLarge
  else
    let cfg' : RiskConfig :=
      { min_collateral_ratio := mcr.getD cfg.min_collateral_ratio
        liquidation_threshold := lt.getD cfg.liquidation_threshold
        close_factor := cf.getD cfg.close_factor
        liquidation_incentive := li.getD cfg.liquidation_incentive }
    if !(riskBoundsOk cfg') then .error .ParameterOutOfBounds
    else if cfg'.min_collateral_ratio < cfg'.liquidation_threshold then
      .error .InvalidRiskConfig
    else .ok cfg'

/-- Parameter-store state: admin identity, the stored configuration and the
emergency pause flag (addresses are natural numbers). -/
structure RiskState where
  admin : Nat
  config : RiskConfig
  emergency_paused : Bool
deriving DecidableEq, Repr

/-- set_risk_params entry point.
Modelled from the spec: section 4.1 — requires caller to be the admin and
emergency pause to be off, then performs the validated all-or-nothing
update. -/
def set_risk_params (s : RiskState) (caller : Nat)
    (mcr lt cf li : Option Int) : Except LendErr RiskState :=
  if caller ≠ s.admin then .error .Unauthorized
  else if s.emergency_paused then .error .EmergencyPaused
  else
    match apply_risk_update s.config mcr lt cf li with
    | .error e => .error e
    | .ok cfg' => .ok { s with config := cfg' }

/-- can_be_liquidated over the stored configuration (none when the contract
was never initialized).
Modelled from the spec: section 4.2 — liquidatable iff debt_value > 0 and
collateral_value * 10000 / debt_value is strictly below the liquidation
threshold; accessors on an uninitialized store yield the typed
not-initialized error. -/
def can_be_liquidated (store : Option RiskConfig)
    (collateral_value debt_value : Int) : Except LendErr Bool :=
  match store with
  | none => .error .NotInitialized
  | some cfg =>
    if 0 < debt_value then
      .ok (decide (Int.tdiv (collateral_value * 10000) debt_value < cfg.liquidation_threshold))
    else .ok false

/-- Per-user position record.
Modelled from the spec: section 3, Position (collateral, principal debt,
accrued unpaid interest, last accrual timestamp). -/
structure Position where
  collateral : Int
  debt : Int
  borrow_interest : Int
  last_accrual_time : Nat
deriving DecidableEq, Repr

/-- Fresh position created on first interaction. -/
def emptyPosition (now : Nat) : Position :=
  { collateral := 0, debt := 0, borrow_interest := 0, last_accrual_time := now }

/-- Per-asset parameters.
Modelled from the spec: section 3, AssetParams. -/
structure AssetParams where
  deposit_enabled : Bool
  collateral_factor : Int
  max_deposit : Int
deriving DecidableEq, Repr

/-- Default parameters of the native asset: enabled, 100% collateral factor,
no deposit cap (the borrow tests note a 100% factor for native). -/
def nativeAssetParams : AssetParams :=
  { deposit_enabled := true, collateral_factor := 10000, max_deposit := 0 }

/-- Seconds in a year, as used by the interest-accrual tests. -/
def yearSeconds : Nat := 31536000

/-- State visible to the lending operations for one user and one asset:
the stored risk configuration (none when initialize was never called), the
user position, the asset parameters, the pause switches and the configured
annual interest rate in basis points. -/
structure LendState where
  config : Option RiskConfig
  position : Option Position
  asset : AssetParams
  paused_deposit : Bool
  paused_withdraw : Bool
  paused_borrow : Bool
  paused_repay : Bool
  emergency_paused : Bool
  interest_rate_bps : Int
deriving DecidableEq, Repr

/-- Minimum collateral ratio used by the lending operations.
Modelled from the spec: lending reads min_collateral_ratio from the
Parameter Store; the lending tests run without initialize and compute limits
with a 150% ratio, so an absent configuration falls back to 15000. -/
def lendMinCr (s : LendState) : Int :=
  match s.config with
  | some cfg => cfg.min_collateral_ratio
  | none => 15000

/-- Interest accrual before every mutating lending operation.
Modelled from the spec: section 4.2 — simple proportional accrual
interest += debt * rate * elapsed / year_seconds on the outstanding
principal, then advance last_accrual_time to now (rate in basis points). -/
def accrue (rate : Int) (now : Nat) (p : Position) : Position :=
  let elapsed : Int := (now : Int) - (p.last_accrual_time : Int)
  let delta := Int.tdiv (p.debt * rate * elapsed) (10000 * (yearSeconds : Int))
  { p with borrow_interest := p.borrow_interest + delta, last_accrual_time := now }

/-- deposit_collateral.
Modelled from the spec: section 4.3 — validate amount > 0, pause gates,
asset enabled and deposit cap, accrue interest, then increase collateral by
a checked addition that rejects on i128 overflow.  The external asset
transfer is an out-of-scope collaborator and is modelled as succeeding; a
deposit cap violation is reported as InvalidAmount. -/
def deposit_collateral (s : LendState) (now : Nat) (amount : Int) :
    Except LendErr (LendState × Int) :=
  if amount ≤ 0 then .error .InvalidAmount
  else if s.emergency_paused then .error .EmergencyPaused
  else if s.paused_deposit then .error .OperationPaused
  else if !s.asset.deposit_enabled then .error .AssetNotEnabled
  else if s.asset.max_deposit ≠ 0 && s.asset.max_deposit < amount then .error .InvalidAmount
  else
    let p := accrue s.interest_rate_bps now (s.position.getD (emptyPosition now))
    let newCol := p.collateral + amount
    if i128Max < newCol then .error .ArithmeticOverflow
    else .ok ({ s with position := some { p with collateral := newCol } }, newCol)

/-- withdraw_collateral.
Modelled from the spec: section 4.3 — validate amount > 0, pause gates,
accrue interest, require amount at most the collateral, then require the
remaining collateral to keep the ratio at or above the minimum against the
current total debt; returns the updated collateral balance. -/
def withdraw_collateral (s : LendState) (now : Nat) (amount : Int) :
    Except LendErr (LendState × Int) :=
  if amount ≤ 0 then .error .InvalidAmount
  else if s.emergency_paused then .error .EmergencyPaused
  else if s.paused_withdraw then .error .OperationPaused
  else
    let p := accrue s.interest_rate_bps now (s.position.getD (emptyPosition now))
    if p.collateral < amount then .error .InsufficientCollateral
    else
      let remaining := p.collateral - amount
      let totalDebt := p.debt + p.borrow_interest
      if 0 < totalDebt && Int.tdiv (remaining * 10000) totalDebt < lendMinCr s then
        .error .InsufficientCollateralRatio
      else .ok ({ s with position := some { p with collateral := remaining } }, remaining)

/-- borrow_asset.
Modelled from the spec: section 4.3 — validate amount > 0, pause gates,
accrue interest, require existing collateral > 0, compute
max_total_debt = collateral * collateral_factor / min_collateral_ratio and
require current_debt + amount to stay within it (MaxBorrowExceeded,
checked before the finer collateral-ratio check), then the ratio check,
then increase debt; returns the new total debt (principal + interest). -/
def borrow_asset (s : LendState) (now : Nat) (amount : Int) :
    Except LendErr (LendState × Int) :=
  if amount ≤ 0 then .error .InvalidAmount
  else if s.emergency_paused then .error .EmergencyPaused
  else if s.paused_borrow then .error .OperationPaused
  else
    let p := accrue s.interest_rate_bps now (s.position.getD (emptyPosition now))
    if p.collateral ≤ 0 then .error .InsufficientCollateral
    else
      let maxTotalDebt := Int.tdiv (p.collateral * s.asset.collateral_factor) (lendMinCr s)
      let currentDebt := p.debt + p.borrow_interest
      if maxTotalDebt < currentDebt + amount then .error .MaxBorrowExceeded
      else if Int.tdiv (p.collateral * 10000) (currentDebt + amount) < lendMinCr s then
        .error .InsufficientCollateralRatio
      else
        .ok ({ s with position := some { p with debt := p.debt + amount } },
             p.debt + amount + p.borrow_interest)

/-- repay_debt.
Modelled from the spec: section 4.3 — validate amount > 0, pause gates,
accrue interest, require outstanding debt or interest (NoDebt otherwise);
the payment is capped at the total owed (excess is never pulled from the
caller), applied first to borrow_interest and the remainder to principal;
returns (remaining_debt, interest_paid, principal_paid) where the remaining
debt is the total still owed. -/
def repay_debt (s : LendState) (now : Nat) (amount : Int) :
    Except LendErr (LendState × (Int × Int × Int)) :=
  if amount ≤ 0 then .error .InvalidAmount
  else if s.emergency_paused then .error .EmergencyPaused
  else if s.paused_repay then .error .OperationPaused
  else
    let p := accrue s.interest_rate_bps now (s.position.getD (emptyPosition now))
    let total := p.debt + p.borrow_interest
    if total ≤ 0 then .error .NoDebt
    else
      let payment := if total ≤ amount then total else amount
      let interestPaid := if p.borrow_interest ≤ payment then p.borrow_interest else payment
      let principalPaid := payment - interestPaid
      let p' := { p with debt := p.debt - principalPaid,
                         borrow_interest := p.borrow_interest - interestPaid }
      .ok ({ s with position := some p' },
           (p'.debt + p'.borrow_interest, interestPaid, principalPaid))

/-- Error type of the governance and multisig module.
Modelled from the spec: sections 4.4, 4.5 and 7. -/
inductive GovErr where
  | Unauthorized
  | InvalidProposal
  | InvalidVote
  | AlreadyVoted
  | ProposalNotFound
  | VotingPeriodEnded
  | ThresholdNotMet
  | TimelockNotExpired
  | ProposalAlreadyExecuted
  | InsufficientApprovals
deriving DecidableEq, Repr

/-- Proposal lifecycle status.
Modelled from the spec: section 3, status of a Proposal. -/
inductive ProposalStatus where
  | Active
  | Passed
  | Failed
  | Executed
deriving DecidableEq, Repr

/-- Vote choice. -/
inductive VoteChoice where
  | For
  | Against
  | Abstain
deriving DecidableEq, Repr

/-- Proposal payload: the parameter change it encodes.
Modelled from the spec: section 3, tagged variants SetMinCollateralRatio and
SetRiskParams. -/
inductive ProposalType where
  | SetMinCollateralRatio (value : Int)
  | SetRiskParams (mcr lt cf li : Option Int)
deriving DecidableEq, Repr

/-- Governance proposal record.
Modelled from the spec: section 3.  voting_end and execution_timelock are
absolute timestamps, set at creation from the (defaulted) durations. -/
structure Proposal where
  id : Nat
  proposer : Nat
  ptype : ProposalType
  status : ProposalStatus
  votes_for : Int
  votes_against : Int
  votes_abstain : Int
  total_voting_power : Int
  voting_start : Nat
  voting_end : Nat
  execution_timelock : Nat
  voting_threshold : Int
deriving DecidableEq, Repr

/-- create_proposal.
Modelled from the spec: section 4.4 — defaults voting_period 7 days,
execution_timelock 2 days, voting_threshold 5000 bps; a threshold above
10000 is rejected with InvalidProposal; status starts Active with zero
tallies. -/
def create_proposal (now : Nat) (nextId : Nat) (proposer : Nat)
    (ptype : ProposalType) (voting_period : Option Nat)
    (execution_timelock : Option Nat) (voting_threshold : Option Int) :
    Except GovErr Proposal :=
  let threshold := voting_threshold.getD 5000
  if 10000 < threshold then .error .InvalidProposal
  else
    .ok { id := nextId
          proposer := proposer
          ptype := ptype
          status := .Active
          votes_for := 0
          votes_against := 0
          votes_abstain := 0
          total_voting_power := 0
          voting_start := now
          voting_end := now + voting_period.getD (7 * 86400)
          execution_timelock := now + execution_timelock.getD (2 * 86400)
          voting_threshold := threshold }

/-- Governance state for one proposal: the proposal, its recorded votes, the
multisig admin set and threshold, the multisig approvals gathered for this
proposal, and the stored risk configuration the executed change applies
to. -/
structure GovState where
  proposal : Proposal
  votes : List (Nat × VoteChoice)
  ms_admins : List Nat
  ms_threshold : Nat
  approvals : List Nat
  config : RiskConfig
deriving DecidableEq, Repr

/-- Whether a voter already has a recorded vote on the proposal. -/
def hasVoted (s : GovState) (voter : Nat) : Bool :=
  s.votes.any (fun v => v.1 == voter)

/-- vote.
Modelled from the spec: section 4.4 — rejects nonpositive voting power
(InvalidVote), a second vote from the same voter (AlreadyVoted) and voting
after voting_end (VotingPeriodEnded); accumulates the tally and the total
voting power, then re-evaluates the threshold: the proposal is Passed the
instant votes_for * 10000 / total_voting_power reaches the threshold (exact
threshold counts as passing).  The tally check recomputes the status on
every vote rather than latching it: test_proposal_fails_threshold votes
400 For (at which instant the for-share is 100%) and then 600 Against and
asserts the proposal is Active afterwards, which a latched Active-to-Passed
transition would contradict. -/
def vote (s : GovState) (voter : Nat) (choice : VoteChoice) (power : Int)
    (now : Nat) : Except GovErr GovState :=
  if power ≤ 0 then .error .InvalidVote
  else if hasVoted s voter then .error .AlreadyVoted
  else if s.proposal.voting_end < now then .error .VotingPeriodEnded
  else
    let p := s.proposal
    let p :=
      match choice with
      | .For => { p with votes_for := p.votes_for + power }
      | .Against => { p with votes_against := p.votes_against + power }
      | .Abstain => { p with votes_abstain := p.votes_abstain + power }
    let p := { p with total_voting_power := p.total_voting_power + power }
    let p :=
      if p.status = .Active ∨ p.status = .Passed then
        if p.voting_threshold ≤ Int.tdiv (p.votes_for * 10000) p.total_voting_power then
          { p with status := .Passed }
        else { p with status := .Active }
      else p
    .ok { s with proposal := p, votes := (voter, choice) :: s.votes }

/-- The parameter change encoded by a proposal, applied through the
Parameter Store.
Modelled from the spec: sections 4.4 and 2 — executing a proposal applies
its encoded change through the Parameter Store's validated update. -/
def apply_proposal_change (cfg : RiskConfig) :
    ProposalType → Except LendErr RiskConfig
  | .SetMinCollateralRatio v => apply_risk_update cfg (some v) none none none
  | .SetRiskParams a b c d => apply_risk_update cfg a b c d

/-- execute_proposal.
Modelled from the spec: section 4.4 — requires status Passed
(ThresholdNotMet while still Active, ProposalAlreadyExecuted when already
Executed, InvalidProposal when Failed), requires the current time to have
reached execution_timelock (TimelockNotExpired otherwise), applies the
encoded change and marks the proposal Executed.  A parameter change the
store rejects surfaces as InvalidProposal. -/
def execute_proposal (now : Nat) (cfg : RiskConfig) (p : Proposal) :
    Except GovErr (Proposal × RiskConfig) :=
  match p.status with
  | .Executed => .error .ProposalAlreadyExecuted
  | .Failed => .error .InvalidProposal
  | .Active => .error .ThresholdNotMet
  | .Passed =>
    if now < p.execution_timelock then .error .TimelockNotExpired
    else
      match apply_proposal_change cfg p.ptype with
      | .error _ => .error .InvalidProposal
      | .ok cfg' => .ok ({ p with status := .Executed }, cfg')

/-- mark_proposal_failed.
Modelled from the spec: section 4.4 — transitions Active to Failed once
voting_end has passed; an error otherwise. -/
def mark_proposal_failed (now : Nat) (p : Proposal) : Except GovErr Proposal :=
  match p.status with
  | .Active =>
    if p.voting_end < now then .ok { p with status := .Failed }
    else .error .InvalidProposal
  | _ => .error .InvalidProposal

/-- approve_proposal (multisig).
Modelled from the spec: section 4.5 — the approver must be a multisig
admin, a repeat approval is rejected with AlreadyVoted, otherwise the
approver is appended to the approval set. -/
def approve_proposal (s : GovState) (approver : Nat) : Except GovErr GovState :=
  if !(s.ms_admins.contains approver) then .error .Unauthorized
  else if s.approvals.contains approver then .error .AlreadyVoted
  else .ok { s with approvals := approver :: s.approvals }

/-- execute_multisig_proposal.
Modelled from the spec: section 4.5 — the executor must be a multisig
admin; requires the approval count to reach the multisig threshold
(InsufficientApprovals otherwise) and then delegates to execute_proposal,
whose own gates (status Passed, timelock elapsed) must also clear. -/
def execute_multisig_proposal (s : GovState) (executor : Nat) (now : Nat) :
    Except GovErr GovState :=
  if !(s.ms_admins.contains executor) then .error .Unauthorized
  else if s.approvals.length < s.ms_threshold then .error .InsufficientApprovals
  else
    match execute_proposal now s.config s.proposal with
    | .error e => .error e
    | .ok (p', cfg') => .ok { s with proposal := p', config := cfg' }

/-- Risk configurations reachable from initialization: the defaults, plus
anything produced by a successful set_risk_params call or by a successfully
executed governance proposal (the two mutation paths of the RiskConfig
singleton named in the spec, section 3). -/
inductive RiskReachable : RiskConfig → Prop where
  | init : RiskReachable defaultRiskConfig
  | step_set (s s' : RiskState) (caller : Nat) (a b c d : Option Int) :
      RiskReachable s.config → set_risk_params s caller a b c d = .ok s' →
      RiskReachable s'.config
  | step_gov (now : Nat) (cfg cfg' : RiskConfig) (p p' : Proposal) :
      RiskReachable cfg → execute_proposal now cfg p = .ok (p', cfg') →
      RiskReachable cfg'

/-- A lending state on which initialize was never called: no stored risk
configuration, no position, default native asset, nothing paused. -/
def freshLendState : LendState :=
  { config := none
    position := none
    asset := nativeAssetParams
    paused_deposit := false
    paused_withdraw := false
    paused_borrow := false
    paused_repay := false
    emergency_paused := false
    interest_rate_bps := 500 }

/-- A proposal with default timing, used to instantiate the governance
theorems at concrete inputs. -/
def sampleProposal (st : ProposalStatus) : Proposal :=
  { id := 1
    proposer := 5
    ptype := .SetMinCollateralRatio 12000
    status := st
    votes_for := 0
    votes_against := 0
    votes_abstain := 0
    total_voting_power := 0
    voting_start := 0
    voting_end := 604800
    execution_timelock := 172800
    voting_threshold := 5000 }

/-- A governance state around sampleProposal with three multisig admins and
threshold two, used to instantiate the multisig theorems. -/
def sampleGovState (st : ProposalStatus) : GovState :=
  { proposal := sampleProposal st
    votes := []
    ms_admins := [7, 8, 9]
    ms_threshold := 2
    approvals := [8]
    config := defaultRiskConfig }

/-- A lending state differing from the fresh one only in holding a position
with the given collateral, debt and accrued interest (accrual time 0). -/
def lendStateWith (c d i : Int) : LendState :=
  { freshLendState with
    position := some { collateral := c, debt := d, borrow_interest := i, last_accrual_time := 0 } }

/-! Helper lemmas shared by the claim theorems. -/

/-- Accrual at the position's own accrual time is the identity. -/
theorem accrue_eq_self (rate : Int) (now : Nat) (p : Position)
    (h : p.last_accrual_time = now) : accrue rate now p = p := by
  subst h
  simp [accrue]

/-- Accrual never touches the collateral field. -/
theorem accrue_collateral (rate : Int) (now : Nat) (p : Position) :
    (accrue rate now p).collateral = p.collateral := by
  simp [accrue]

/-- A successful validated update satisfies the (non-strict) threshold
invariant on its output. -/
theorem apply_risk_update_ok_inv (cfg cfg' : RiskConfig)
    (a b c d : Option Int) (h : apply_risk_update cfg a b c d = .ok cfg') :
    cfg'.liquidation_threshold ≤ cfg'.min_collateral_ratio := by
  simp only [apply_risk_update] at h
  split_ifs at h with h1 h2 h3 h4 h5 h6
  simp only [Except.ok.injEq] at h
  subst h
  exact le_of_not_lt h6

/-- A successful set_risk_params call factors through the validated
update. -/
theorem set_risk_params_ok_config (s : RiskState) (s' : RiskState)
    (caller : Nat) (a b c d : Option Int)
    (h : set_risk_params s caller a b c d = .ok s') :
    apply_risk_update s.config a b c d = .ok s'.config := by
  unfold set_risk_params at h
  split_ifs at h
  cases happ : apply_risk_update s.config a b c d with
  | error e => rw [happ] at h; exact absurd h (by simp)
  | ok cfg' =>
    rw [happ] at h
    simp only [Except.ok.injEq] at h
    subst h
    rfl

/-- A successful proposal execution factors through the validated update. -/
theorem execute_proposal_ok_config (now : Nat) (cfg cfg' : RiskConfig)
    (p p' : Proposal) (h : execute_proposal now cfg p = .ok (p', cfg')) :
    apply_proposal_change cfg p.ptype = .ok cfg' := by
  unfold execute_proposal at h
  split at h
  · exact absurd h (by simp)
  · exact absurd h (by simp)
  · exact absurd h (by simp)
  · split_ifs at h with hlt
    cases happ : apply_proposal_change cfg p.ptype with
    | error e => rw [happ] at h; exact absurd h (by simp)
    | ok c2 =>
      rw [happ] at h
      simp only [Except.ok.injEq, Prod.mk.injEq] at h
      rw [h.2]

/-- The change a proposal encodes goes through the validated update, so a
successful application satisfies the threshold invariant. -/
theorem apply_proposal_change_ok_inv (cfg cfg' : RiskConfig)
    (t : ProposalType) (h : apply_proposal_change cfg t = .ok cfg') :
    cfg'.liquidation_threshold ≤ cfg'.min_collateral_ratio := by
  cases t with
  | SetMinCollateralRatio v => exact apply_risk_update_ok_inv cfg cfg' _ _ _ _ h
  | SetRiskParams a b c d => exact apply_risk_update_ok_inv cfg cfg' _ _ _ _ h

/-- Facts recoverable from a successful execute_proposal call: the proposal
was Passed, the timelock had elapsed, and the stored proposal is now
Executed. -/
theorem execute_proposal_ok_facts (now : Nat) (cfg cfg' : RiskConfig)
    (p p' : Proposal) (h : execute_proposal now cfg p = .ok (p', cfg')) :
    p.status = .Passed ∧ p.execution_timelock ≤ now ∧ p'.status = .Executed := by
  unfold execute_proposal at h
  split at h
  · exact absurd h (by simp)
  · exact absurd h (by simp)
  · exact absurd h (by simp)
  · rename_i hst
    split_ifs at h with hlt
    refine ⟨hst, not_lt.mp hlt, ?_⟩
    cases happ : apply_proposal_change cfg p.ptype with
    | error e => rw [happ] at h; exact absurd h (by simp)
    | ok c2 =>
      rw [happ] at h
      simp only [Except.ok.injEq, Prod.mk.injEq] at h
      rw [← h.1]

/-- A result other than ParameterChangeTooLarge means every provided field
passed its relative-change check. -/
theorem apply_risk_update_ne_change (cfg : RiskConfig) (mcr lt cf li : Option Int)
    (h : apply_risk_update cfg mcr lt cf li ≠ .error .ParameterChangeTooLarge) :
    withinChangeLimit cfg.min_collateral_ratio (mcr.getD cfg.min_collateral_ratio) = true ∧
    withinChangeLimit cfg.liquidation_threshold (lt.getD cfg.liquidation_threshold) = true ∧
    withinChangeLimit cfg.close_factor (cf.getD cfg.close_factor) = true ∧
    withinChangeLimit cfg.liquidation_incentive (li.getD cfg.liquidation_incentive) = true := by
  simp only [apply_risk_update] at h
  split_ifs at h with h1 h2 h3 h4 h5 h6 <;> try (exact absurd rfl h)
  all_goals exact ⟨by simpa using h1, by simpa using h2, by simpa using h3, by simpa using h4⟩

/-- With the admin as caller and no emergency pause, set_risk_params is the
validated update on the stored configuration. -/
theorem set_risk_params_admin (s : RiskState) (mcr lt cf li : Option Int)
    (hep : s.emergency_paused = false) :
    set_risk_params s s.admin mcr lt cf li =
      match apply_risk_update s.config mcr lt cf li with
      | .error e => .error e
      | .ok cfg' => .ok { s with config := cfg' } := by
  simp [set_risk_params, hep]

/-- C2 (counterexample): the claim says any update whose post-update values
would have min_collateral_ratio equal to liquidation_threshold is rejected;
on the modelled code the update that sets both to 10000 from the defaults
succeeds (this is exactly test_risk_params_edge_cases), so the enforced
invariant is non-strict. -/
theorem set_risk_params_accepts_equal_threshold :
    set_risk_params { admin := 7, config := defaultRiskConfig, emergency_paused := false } 7
      (some 10000) (some 10000) none none =
    .ok { admin := 7
          config := { min_collateral_ratio := 10000, liquidation_threshold := 10000,
                      close_factor := 5000, liquidation_incentive := 1000 }
          emergency_paused := false } := by
  decide

/-- C2 (amended): every operation that updates the stored RiskConfig
(set_risk_params and executed governance proposals) preserves the non-strict
invariant min_collateral_ratio ≥ liquidation_threshold: an update whose
post-update values would have min_collateral_ratio strictly below
liquidation_threshold is rejected, so every reachable stored RiskConfig
satisfies liquidation_threshold ≤ min_collateral_ratio. -/
theorem riskConfig_invariant_reachable (c : RiskConfig) (h : RiskReachable c) :
    c.liquidation_threshold ≤ c.min_collateral_ratio := by
  induction h with
  | init => decide
  | step_set s s' caller a b c' d hr hok ih =>
    exact apply_risk_update_ok_inv _ _ _ _ _ _ (set_risk_params_ok_config _ _ _ _ _ _ _ hok)
  | step_gov now cfg cfg' p p' hr hok ih =>
    exact apply_proposal_change_ok_inv _ _ _ (execute_proposal_ok_config _ _ _ _ _ hok)

/-- Witness for C2 (amended): the invariant instantiated at the initial
configuration. -/
theorem riskConfig_invariant_reachable_witness :
    defaultRiskConfig.liquidation_threshold ≤ defaultRiskConfig.min_collateral_ratio :=
  riskConfig_invariant_reachable defaultRiskConfig RiskReachable.init

/-- C3: a set_risk_params call by the admin (emergency pause off) in which
some provided field's requested change exceeds 10% of that field's current
value fails with ParameterChangeTooLarge — whatever the other fields were —
and, the result being an error, no field of the stored RiskConfig
changes. -/
theorem set_risk_params_change_too_large (s : RiskState) (caller : Nat)
    (mcr lt cf li : Option Int)
    (hcall : caller = s.admin) (hep : s.emergency_paused = false)
    (hbig :
      (∃ v, mcr = some v ∧
        (Int.tdiv s.config.min_collateral_ratio 10 < v - s.config.min_collateral_ratio ∨
         Int.tdiv s.config.min_collateral_ratio 10 < s.config.min_collateral_ratio - v)) ∨
      (∃ v, lt = some v ∧
        (Int.tdiv s.config.liquidation_threshold 10 < v - s.config.liquidation_threshold ∨
         Int.tdiv s.config.liquidation_threshold 10 < s.config.liquidation_threshold - v)) ∨
      (∃ v, cf = some v ∧
        (Int.tdiv s.config.close_factor 10 < v - s.config.close_factor ∨
         Int.tdiv s.config.close_factor 10 < s.config.close_factor - v)) ∨
      (∃ v, li = some v ∧
        (Int.tdiv s.config.liquidation_incentive 10 < v - s.config.liquidation_incentive ∨
         Int.tdiv s.config.liquidation_incentive 10 < s.config.liquidation_incentive - v))) :
    set_risk_params s caller mcr lt cf li = .error .ParameterChangeTooLarge := by
  subst hcall
  rw [set_risk_params_admin s mcr lt cf li hep]
  suffices happ : apply_risk_update s.config mcr lt cf li = .error .ParameterChangeTooLarge by
    rw [happ]
  by_contra hne
  obtain ⟨w1, w2, w3, w4⟩ := apply_risk_update_ne_change _ _ _ _ _ hne
  rcases hbig with ⟨v, hv, hx⟩ | ⟨v, hv, hx⟩ | ⟨v, hv, hx⟩ | ⟨v, hv, hx⟩ <;> subst hv <;>
    simp only [Option.getD_some, withinChangeLimit, Bool.and_eq_true,
      decide_eq_true_eq] at w1 w2 w3 w4 <;>
    rcases hx with hx | hx <;>
    linarith [w1.1, w1.2, w2.1, w2.2, w3.1, w3.2, w4.1, w4.2]

/-- Witness for C3: at the defaults, requesting min_collateral_ratio 15000
(a change of 4000 against the limit of 1100) fails with
ParameterChangeTooLarge, as in test_set_risk_params_change_too_large. -/
theorem set_risk_params_change_too_large_witness :
    set_risk_params { admin := 7, config := defaultRiskConfig, emergency_paused := false } 7
      (some 15000) none none none = .error .ParameterChangeTooLarge :=
  set_risk_params_change_too_large
    { admin := 7, config := defaultRiskConfig, emergency_paused := false } 7
    (some 15000) none none none rfl rfl
    (Or.inl ⟨15000, rfl, Or.inl (by decide)⟩)

/-- C4: can_be_liquidated on an initialized store returns true exactly when
debt_value is positive and collateral_value * 10000 / debt_value is strictly
below the liquidation threshold; in particular it returns false at exactly
the threshold and false whenever debt_value is zero. -/
theorem can_be_liquidated_spec (cfg : RiskConfig) (c d : Int) :
    can_be_liquidated (some cfg) c d =
      .ok (decide (0 < d ∧ Int.tdiv (c * 10000) d < cfg.liquidation_threshold)) := by
  simp only [can_be_liquidated]
  split_ifs with h
  · exact congrArg Except.ok (decide_eq_decide.mpr (and_iff_right h).symm)
  · simp [h]

/-- C1: for a user with an existing position of positive collateral (stored
RiskConfig present, borrow not paused, positive amount, interest already
accrued), borrow_asset fails with MaxBorrowExceeded exactly when
current_debt + amount exceeds
max_total_debt = collateral * collateral_factor / min_collateral_ratio with
min_collateral_ratio taken from the stored RiskConfig; the equivalence in
particular makes MaxBorrowExceeded take precedence over the finer
InsufficientCollateralRatio check that follows it. -/
theorem borrow_max_exceeded_iff (s : LendState) (now : Nat) (amount : Int)
    (cfg : RiskConfig) (p : Position)
    (hcfg : s.config = some cfg) (hp : s.position = some p)
    (hacc : p.last_accrual_time = now) (hcol : 0 < p.collateral)
    (ha : 0 < amount) (hep : s.emergency_paused = false)
    (hpb : s.paused_borrow = false) :
    borrow_asset s now amount = .error .MaxBorrowExceeded ↔
      Int.tdiv (p.collateral * s.asset.collateral_factor) cfg.min_collateral_ratio <
        p.debt + p.borrow_interest + amount := by
  simp only [borrow_asset, hep, hpb, hp, Option.getD_some,
    accrue_eq_self s.interest_rate_bps now p hacc, lendMinCr, hcfg,
    if_neg (not_le.mpr ha), if_neg (not_le.mpr hcol), Bool.false_eq_true, if_false]
  split_ifs with h1 h2 <;> simp_all

/-- Witness for C1: with the default configuration stored, 1000 collateral
and no debt, borrowing 1000 exceeds max_total_debt = 909 and fails with
MaxBorrowExceeded. -/
theorem borrow_max_exceeded_iff_witness :
    borrow_asset ({ lendStateWith 1000 0 0 with config := some defaultRiskConfig }) 0 1000 =
      .error .MaxBorrowExceeded :=
  (borrow_max_exceeded_iff ({ lendStateWith 1000 0 0 with config := some defaultRiskConfig })
      0 1000 defaultRiskConfig
      { collateral := 1000, debt := 0, borrow_interest := 0, last_accrual_time := 0 }
      rfl rfl rfl (by decide) (by decide) rfl rfl).mpr (by decide)

/-- C5: repay_debt applies the payment to interest first.  With interest
already accrued, outstanding amounts nonnegative and a positive payment:
paying less than the accrued interest leaves the principal unchanged,
reduces only borrow_interest and reports principal_paid = 0; paying at
least the total owed zeroes both fields, takes only the owed amount
(interest_paid + principal_paid equals the old interest plus the old debt)
and returns (0, interest_paid, principal_paid). -/
theorem repay_interest_first (s : LendState) (now : Nat) (a : Int) (p : Position)
    (hp : s.position = some p) (hacc : p.last_accrual_time = now)
    (hep : s.emergency_paused = false) (hpr : s.paused_repay = false)
    (hd : 0 ≤ p.debt) (hi : 0 ≤ p.borrow_interest) (ha : 0 < a) :
    (a < p.borrow_interest →
      repay_debt s now a =
        .ok ({ s with position := some { p with borrow_interest := p.borrow_interest - a } },
             (p.debt + (p.borrow_interest - a), a, 0))) ∧
    (0 < p.debt + p.borrow_interest → p.debt + p.borrow_interest ≤ a →
      repay_debt s now a =
        .ok ({ s with position := some { p with debt := 0, borrow_interest := 0 } },
             (0, p.borrow_interest, p.debt))) := by
  have h1 : ¬ (a ≤ 0) := not_le.mpr ha
  constructor
  · intro hlt
    simp only [repay_debt, hep, hpr, hp, Option.getD_some,
      accrue_eq_self s.interest_rate_bps now p hacc, Bool.false_eq_true, if_false,
      if_neg h1]
    rw [if_neg (by omega : ¬ (p.debt + p.borrow_interest ≤ 0)),
      if_neg (by omega : ¬ (p.debt + p.borrow_interest ≤ a)),
      if_neg (by omega : ¬ (p.borrow_interest ≤ a))]
    simp
  · intro h0 hge
    simp only [repay_debt, hep, hpr, hp, Option.getD_some,
      accrue_eq_self s.interest_rate_bps now p hacc, Bool.false_eq_true, if_false,
      if_neg h1]
    rw [if_neg (by omega : ¬ (p.debt + p.borrow_interest ≤ 0)),
      if_pos hge,
      if_pos (by omega : p.borrow_interest ≤ p.debt + p.borrow_interest)]
    simp

/-- Witness for C5: repaying 50 against debt 500 and accrued interest 100
(the scenario of test_repay_debt_interest_only) reduces only the interest
and returns (550, 50, 0). -/
theorem repay_interest_first_witness :
    repay_debt (lendStateWith 1000 500 100) 0 50 =
      .ok ({ lendStateWith 1000 500 100 with
               position := some { collateral := 1000, debt := 500, borrow_interest := 50,
                                  last_accrual_time := 0 } },
           (550, 50, 0)) :=
  (repay_interest_first (lendStateWith 1000 500 100) 0 50
      { collateral := 1000, debt := 500, borrow_interest := 100, last_accrual_time := 0 }
      rfl rfl rfl rfl (by decide) (by decide) (by decide)).1 (by decide)

/-- C9: once a position's stored collateral equals the maximum representable
i128 value, any further deposit of a positive amount fails with the
arithmetic-overflow error from the checked addition (and, the call failing,
the stored collateral never wraps or shrinks). -/
theorem deposit_overflow_guard (s : LendState) (now : Nat) (a : Int) (p : Position)
    (hp : s.position = some p) (hcol : p.collateral = i128Max)
    (hep : s.emergency_paused = false) (hpd : s.paused_deposit = false)
    (hen : s.asset.deposit_enabled = true) (hmax : s.asset.max_deposit = 0)
    (ha : 0 < a) :
    deposit_collateral s now a = .error .ArithmeticOverflow := by
  simp only [deposit_collateral, hep, hpd, hen, hmax, hp, Option.getD_some,
    Bool.false_eq_true, if_false, if_neg (not_le.mpr ha), Bool.not_true]
  rw [accrue_collateral, hcol]
  simp [(lt_add_iff_pos_right i128Max).mpr ha]

/-- Witness for C9: with the stored collateral at i128::MAX, depositing 1
more fails with ArithmeticOverflow, as in
test_deposit_collateral_overflow_protection. -/
theorem deposit_overflow_guard_witness :
    deposit_collateral (lendStateWith i128Max 0 0) 0 1 = .error .ArithmeticOverflow :=
  deposit_overflow_guard (lendStateWith i128Max 0 0) 0 1
    { collateral := i128Max, debt := 0, borrow_interest := 0, last_accrual_time := 0 }
    rfl rfl rfl rfl rfl rfl (by decide)

/-- C10: the lending operations need no prior initialization: on a fresh
state with no stored RiskConfig, depositing any positive native amount
succeeds and creates the position, and borrow, withdraw and repay then
operate normally (shown on the concrete scenario of the tests: deposit
2000, borrow 1000, withdraw 500, repay in full); moreover none of the four
lending operations can ever return the not-initialized error, on any state
and input. -/
theorem lending_requires_no_initialization :
    (∀ a : Int, 0 < a → a ≤ i128Max →
      deposit_collateral freshLendState 0 a = .ok (lendStateWith a 0 0, a)) ∧
    (borrow_asset (lendStateWith 2000 0 0) 0 1000 = .ok (lendStateWith 2000 1000 0, 1000)) ∧
    (withdraw_collateral (lendStateWith 2000 1000 0) 0 500 =
      .ok (lendStateWith 1500 1000 0, 1500)) ∧
    (repay_debt (lendStateWith 2000 1000 0) 0 1000 =
      .ok (lendStateWith 2000 0 0, (0, 0, 1000))) ∧
    (∀ (t : LendState) (now : Nat) (b : Int),
      deposit_collateral t now b ≠ .error .NotInitialized ∧
      borrow_asset t now b ≠ .error .NotInitialized ∧
      withdraw_collateral t now b ≠ .error .NotInitialized ∧
      repay_debt t now b ≠ .error .NotInitialized) := by
  refine ⟨?_, by decide, by decide, by decide, ?_⟩
  · intro a ha hle
    simp only [deposit_collateral, freshLendState, nativeAssetParams, emptyPosition, accrue,
      lendStateWith, Option.getD_none, if_neg (not_le.mpr ha)]
    norm_num
    intro hcontra
    exact absurd hcontra (not_lt.mpr hle)
  · intro t now b
    refine ⟨?_, ?_, ?_, ?_⟩ <;> intro h
    · simp only [deposit_collateral] at h
      split_ifs at h <;> simp_all
    · simp only [borrow_asset] at h
      split_ifs at h <;> simp_all
    · simp only [withdraw_collateral] at h
      split_ifs at h <;> simp_all
    · simp only [repay_debt] at h
      split_ifs at h <;> simp_all

/-- Witness for C10: depositing 1 on the fresh state succeeds and creates
the position. -/
theorem lending_requires_no_initialization_witness :
    deposit_collateral freshLendState 0 1 = .ok (lendStateWith 1 0 0, 1) :=
  lending_requires_no_initialization.1 1 (by decide) (by decide)

/-- C7: execute_proposal succeeds only on a Passed proposal whose execution
timelock has elapsed: on an Active proposal it fails with ThresholdNotMet,
on a Passed proposal before the timelock it fails with TimelockNotExpired,
on an Executed proposal it fails with ProposalAlreadyExecuted; and after any
successful execution the proposal is Executed, so a second attempt — at any
time and against any configuration — always fails with
ProposalAlreadyExecuted and never reapplies the parameter change. -/
theorem execute_proposal_gates (now : Nat) (cfg : RiskConfig) (p : Proposal) :
    (p.status = .Active → execute_proposal now cfg p = .error .ThresholdNotMet) ∧
    (p.status = .Executed → execute_proposal now cfg p = .error .ProposalAlreadyExecuted) ∧
    (p.status = .Passed → now < p.execution_timelock →
      execute_proposal now cfg p = .error .TimelockNotExpired) ∧
    (∀ (q : Proposal) (cfg2 : RiskConfig), execute_proposal now cfg p = .ok (q, cfg2) →
      p.status = .Passed ∧ p.execution_timelock ≤ now ∧ q.status = .Executed ∧
      ∀ (now2 : Nat) (cfg3 : RiskConfig),
        execute_proposal now2 cfg3 q = .error .ProposalAlreadyExecuted) := by
  refine ⟨?_, ?_, ?_, ?_⟩
  · intro h; simp [execute_proposal, h]
  · intro h; simp [execute_proposal, h]
  · intro h hlt; simp [execute_proposal, h, hlt]
  · intro q cfg2 h
    obtain ⟨h1, h2, h3⟩ := execute_proposal_ok_facts now cfg cfg2 p q h
    exact ⟨h1, h2, h3, fun now2 cfg3 => by simp [execute_proposal, h3]⟩

/-- Witness for C7: executing the still-Active sample proposal fails with
ThresholdNotMet. -/
theorem execute_proposal_gates_witness :
    execute_proposal 0 defaultRiskConfig (sampleProposal .Active) = .error .ThresholdNotMet :=
  (execute_proposal_gates 0 defaultRiskConfig (sampleProposal .Active)).1 rfl

/-- C6: execute_multisig_proposal succeeds only when the approval count has
reached the multisig threshold and the underlying proposal is Passed with
its timelock elapsed; and for a multisig admin whose approval count is below
the threshold the call fails with InsufficientApprovals (the result being an
error, the proposal state is unchanged). -/
theorem execute_multisig_gates (s : GovState) (executor : Nat) (now : Nat) :
    (∀ s2, execute_multisig_proposal s executor now = .ok s2 →
      s.ms_threshold ≤ s.approvals.length ∧ s.proposal.status = .Passed ∧
      s.proposal.execution_timelock ≤ now) ∧
    (s.ms_admins.contains executor = true → s.approvals.length < s.ms_threshold →
      execute_multisig_proposal s executor now = .error .InsufficientApprovals) := by
  constructor
  · intro s2 h
    simp only [execute_multisig_proposal] at h
    split_ifs at h with hadm happ
    cases hex : execute_proposal now s.config s.proposal with
    | error e => rw [hex] at h; exact absurd h (by simp)
    | ok pc =>
      obtain ⟨q, cfg2⟩ := pc
      obtain ⟨h1, h2, h3⟩ := execute_proposal_ok_facts now s.config cfg2 s.proposal q hex
      exact ⟨not_lt.mp happ, h1, h2⟩
  · intro hadm hlt
    simp [execute_multisig_proposal, hadm, hlt]
    simpa using hadm

/-- Witness for C6: in the sample multisig state (threshold 2, one
approval), execution by an admin fails with InsufficientApprovals even
though the proposal is Passed and the timelock has elapsed. -/
theorem execute_multisig_gates_witness :
    execute_multisig_proposal (sampleGovState .Passed) 7 200000 =
      .error .InsufficientApprovals :=
  (execute_multisig_gates (sampleGovState .Passed) 7 200000).2 (by decide) (by decide)

/-- C8: on an Active proposal, a valid vote (positive power, first vote of
this voter, within the voting window) is accepted, accumulates the tally
and the total voting power, and the proposal's status immediately after the
vote is Passed exactly when votes_for * 10000 / total_voting_power has
reached the voting threshold (meeting it exactly counts as passing);
otherwise the status is Active.  The transition is decided by the vote
itself, not by time. -/
theorem vote_threshold_transition (s : GovState) (voter : Nat)
    (choice : VoteChoice) (power : Int) (now : Nat)
    (hact : s.proposal.status = .Active)
    (hnv : hasVoted s voter = false)
    (hp : 0 < power) (hend : now ≤ s.proposal.voting_end) :
    ∃ s2, vote s voter choice power now = .ok s2 ∧
      s2.proposal.votes_for =
        s.proposal.votes_for + (if choice = .For then power else 0) ∧
      s2.proposal.total_voting_power = s.proposal.total_voting_power + power ∧
      (s2.proposal.status = .Passed ↔
        s.proposal.voting_threshold ≤
          Int.tdiv (s2.proposal.votes_for * 10000) s2.proposal.total_voting_power) ∧
      (s2.proposal.status = .Passed ∨ s2.proposal.status = .Active) := by
  have h1 : ¬ (power ≤ 0) := not_le.mpr hp
  have h2 : ¬ (s.proposal.voting_end < now) := not_lt.mpr hend
  cases choice <;>
    simp only [vote, hnv, Bool.false_eq_true, if_false, if_neg h1, if_neg h2, hact] <;>
    split_ifs with hthr <;>
    exact ⟨_, rfl, by simp_all⟩

/-- Witness for C8: a first For vote of power 1000 on the Active sample
proposal (threshold 5000 bps) is accepted and passes it on the spot. -/
theorem vote_threshold_transition_witness :
    ∃ s2, vote (sampleGovState .Active) 1 VoteChoice.For 1000 0 = .ok s2 ∧
      s2.proposal.votes_for = (sampleGovState .Active).proposal.votes_for +
        (if VoteChoice.For = VoteChoice.For then 1000 else 0) ∧
      s2.proposal.total_voting_power =
        (sampleGovState .Active).proposal.total_voting_power + 1000 ∧
      (s2.proposal.status = .Passed ↔
        (sampleGovState .Active).proposal.voting_threshold ≤
          Int.tdiv (s2.proposal.votes_for * 10000) s2.proposal.total_voting_power) ∧
      (s2.proposal.status = .Passed ∨ s2.proposal.status = .Active) :=
  vote_threshold_transition (sampleGovState .Active) 1 .For 1000 0
    rfl (by decide) (by decide) (by decide)
